import Mathlib

/-!
Verification development for the UltraMemory hybrid memory engine.

Each Python function that a claim refers to is shallowly embedded as an
executable Lean definition, translated from the source in `src/`.  Python
strings are modelled as `List Char` (ASCII fragment: all concrete inputs in
the theorems below are ASCII, where Python's `str` semantics and this model
agree), Python `int` as `Int`/`Nat`, Python floats that only ever hold exact
decimal products as `ℚ`, and fallible calls as `Except String α`.  External
collaborators (the RNG stream behind `random`, `hashlib` digests, CPython's
builtin `hash`, backend network calls) are threaded through as explicit
parameters so that every theorem is about the repository's own control flow.
-/

set_option autoImplicit false
set_option maxRecDepth 40000

namespace UltraMemory

/-! ### Python string primitives

`pyNorm`, `pySlice`, `pyRfind` model CPython's slice-index normalisation:
a negative index is taken from the end (`len + i`, clamped at 0), a positive
index is clamped at `len`.  `str.rfind(sub, i, j)` searches `s[i:j]` and
returns the highest matching index, or `-1`.  `pyStrip` models `str.strip()`
(ASCII whitespace), `pySplitWs` models `str.split()` with no argument
(split on whitespace runs, dropping empty fields), `asciiLower` models
`str.lower()` on ASCII text, and `hasSub` models `sub in s`. -/

def isPySpace (c : Char) : Bool :=
  c = ' ' || c = '\t' || c = '\n' || c = '\r' || c = '\x0b' || c = '\x0c'

def pyStrip (s : List Char) : List Char :=
  ((s.dropWhile isPySpace).reverse.dropWhile isPySpace).reverse

def pySplitWs (s : List Char) : List (List Char) :=
  (List.splitOnP isPySpace s).filter (fun w => ¬ w.isEmpty)

def pyNorm (len : Nat) (i : Int) : Nat :=
  if i < 0 then ((len : Int) + i).toNat else min len i.toNat

def pySlice (s : List Char) (i j : Int) : List Char :=
  let a := pyNorm s.length i
  let b := pyNorm s.length j
  (s.drop a).take (b - a)

def pyRfind (s : List Char) (c : Char) (i j : Int) : Int :=
  let a := pyNorm s.length i
  let b := pyNorm s.length j
  match ((s.enum.filter (fun p => decide (a ≤ p.1 ∧ p.1 < b ∧ p.2 = c))).map
      (fun p => p.1)).getLast? with
  | some k => (k : Int)
  | none => -1

def asciiLower (c : Char) : Char :=
  if 'A' ≤ c ∧ c ≤ 'Z' then Char.ofNat (c.toNat + 32) else c

def lowerStr (s : List Char) : List Char := s.map asciiLower

def hasSub : List Char → List Char → Bool
  | [], sub => sub.isEmpty
  | h :: t, sub => sub.isPrefixOf (h :: t) || hasSub t sub

def isAsciiAlpha (c : Char) : Bool :=
  ('a' ≤ c && c ≤ 'z') || ('A' ≤ c && c ≤ 'Z')

def isAsciiDigit (c : Char) : Bool := '0' ≤ c && c ≤ '9'

def isAsciiAlnum (c : Char) : Bool := isAsciiAlpha c || isAsciiDigit c

/-- Regex word character (`\w`): letter, digit or underscore. -/
def isWordChar (c : Char) : Bool := isAsciiAlnum c || c = '_'

/-- First-occurrence deduplication: the distinct elements of `l` in the order
of their first appearance.  This is the key order of a Python `set`-free
dedup as well as the enumeration order of `Counter` keys (insertion order);
`dedupFirst l |>.length` is `len(set(l))`. -/
def dedupFirst {α : Type} [DecidableEq α] (l : List α) : List α :=
  l.foldl (fun acc x => if acc.contains x then acc else acc ++ [x]) []

/-! ### Document Processor (`src/core/document_processor.py`)

`DocumentProcessor.chunk` is a `while start < len(text)` loop whose index
variable `start` is a Python `int` (it may go negative, and may fail to
advance).  The loop is embedded with explicit fuel: `chunkLoop … fuel …`
returns `none` exactly when the source loop runs for more than `fuel`
iterations. -/

namespace DocumentProcessor

/-- One window bound: `end = start + chunk_size`, moved back to just after the
last `'.'` or `'\n'` strictly beyond `start` when the window ends inside the
text (`src/core/document_processor.py:117`-`127`). -/
def chunkEnd (text : List Char) (cs : Int) (start : Int) : Int :=
  let e := start + cs
  if e < (text.length : Int) then
    let lastPeriod := pyRfind text '.' start e
    let lastNewline := pyRfind text '\n' start e
    let breakPoint := max lastPeriod lastNewline
    if breakPoint > start then breakPoint + 1 else e
  else e

/-- `text[start:end].strip()` (`src/core/document_processor.py:129`). -/
def chunkPiece (text : List Char) (start e : Int) : List Char :=
  pyStrip (pySlice text start e)

/-- The `while start < len(text)` loop of `DocumentProcessor.chunk`
(`src/core/document_processor.py:117`-`133`), with fuel. -/
def chunkLoop (text : List Char) (cs ov : Int) :
    Nat → Int → List (List Char) → Option (List (List Char))
  | 0, _, _ => none
  | fuel + 1, start, acc =>
    if start < (text.length : Int) then
      let e := chunkEnd text cs start
      let piece := chunkPiece text start e
      chunkLoop text cs ov fuel (e - ov) (if piece.isEmpty then acc else acc ++ [piece])
    else some acc

/-- `DocumentProcessor.chunk` (`src/core/document_processor.py:109`-`135`):
a text no longer than `chunk_size` passes through unchunked (or yields `[]`
when blank); otherwise the windowing loop runs. -/
def chunk (text : List Char) (cs ov : Int) (fuel : Nat) : Option (List (List Char)) :=
  if (text.length : Int) ≤ cs then
    some (if (pyStrip text).isEmpty then [] else [text])
  else chunkLoop text cs ov fuel 0 []

/-- The input of the repository's own test `test_chunk_long_text`
(`src/tests/test_document_processor.py`): `"A"*200 + ". " + "B"*200 + "."`,
processed with `chunk_size=100, chunk_overlap=20` as in the test fixture. -/
def hangText : List Char :=
  List.replicate 200 'A' ++ ('.' :: ' ' :: List.replicate 200 'B') ++ ['.']

end DocumentProcessor

/-! ### Embedding providers (`src/core/embedding_provider.py`)

The two provider classes are embedded as pure functions.  The external
pieces — the HTTP response body, the seeded `random.uniform` stream and the
real-valued magnitude `sum(x**2)**0.5` — are parameters: `response = none`
models "no 200 response" (connection error or non-200 status), `rand` is the
MD5-seeded stream, `magOf` the magnitude.  Only the lengths of the produced
vectors matter to the claims, and those are independent of `rand`/`magOf`. -/

namespace EmbeddingProvider

/-- `EmbeddingProvider.DEFAULT_DIMENSIONS.get(model, 1536)`
(`src/core/embedding_provider.py:11`-`16`). -/
def minimaxDefaultDims (model : String) : Nat :=
  if model = "MiniMax-Text-01" then 1536
  else if model = "text-embedding-3-small" then 1536
  else if model = "text-embedding-3-large" then 3072
  else if model = "text-embedding-ada-002" then 1536
  else 1536

/-- `OpenAIEmbeddingProvider.DEFAULT_DIMENSIONS.get(model, 1536)`
(`src/core/embedding_provider.py:94`-`98`). -/
def openaiDefaultDims (model : String) : Nat :=
  if model = "text-embedding-3-small" then 1536
  else if model = "text-embedding-3-large" then 3072
  else if model = "text-embedding-ada-002" then 1536
  else 1536

structure Cfg where
  api_key : String
  model : String
  vector_size : Option Nat
  deriving DecidableEq

/-- `self.vector_size = vector_size or self.DEFAULT_DIMENSIONS.get(model, 1536)`
for the MiniMax provider; Python `or` treats `0` as falsy. -/
def minimaxVectorSize (cfg : Cfg) : Nat :=
  match cfg.vector_size with
  | some n => if n = 0 then minimaxDefaultDims cfg.model else n
  | none => minimaxDefaultDims cfg.model

/-- Same for the OpenAI provider. -/
def openaiVectorSize (cfg : Cfg) : Nat :=
  match cfg.vector_size with
  | some n => if n = 0 then openaiDefaultDims cfg.model else n
  | none => openaiDefaultDims cfg.model

/-- The dimension fix-up applied to an API response in both `embed` bodies:
truncate when too long, zero-pad when too short
(`src/core/embedding_provider.py:55`-`61` and `137`-`142`). -/
def fitDim (n : Nat) (e : List ℚ) : List ℚ :=
  if e.length = n then e
  else if e.length > n then e.take n
  else e ++ List.replicate (n - e.length) 0

/-- `embedding = [x / magnitude for x in embedding] if magnitude > 0`. -/
def normalizeBy (mag : ℚ) (v : List ℚ) : List ℚ :=
  if 0 < mag then v.map (fun x => x / mag) else v

/-- `[random.uniform(-1, 1) for _ in range(n)]` as the seeded stream `rand`. -/
def mockValues (rand : Nat → ℚ) (n : Nat) : List ℚ :=
  (List.range n).map rand

/-- `EmbeddingProvider._mock_embedding` (`src/core/embedding_provider.py:71`-
`88`): the list comprehension runs over `range(self.vector_size)`. -/
def minimaxMockEmbedding (rand : Nat → ℚ) (magOf : List ℚ → ℚ) (cfg : Cfg) : List ℚ :=
  let e := mockValues rand (minimaxVectorSize cfg)
  normalizeBy (magOf e) e

/-- `OpenAIEmbeddingProvider._mock_embedding` (`src/core/embedding_provider.py:147`-
`160`): the list comprehension runs over the literal `range(1536)`, not
`range(self.vector_size)`. -/
def openaiMockEmbedding (rand : Nat → ℚ) (magOf : List ℚ → ℚ) (_cfg : Cfg) : List ℚ :=
  let e := mockValues rand 1536
  normalizeBy (magOf e) e

/-- `EmbeddingProvider.embed` (`src/core/embedding_provider.py:30`-`68`). -/
def minimaxEmbed (rand : Nat → ℚ) (magOf : List ℚ → ℚ) (cfg : Cfg)
    (response : Option (List ℚ)) : List ℚ :=
  if cfg.api_key = "" then minimaxMockEmbedding rand magOf cfg
  else
    match response with
    | some e => fitDim (minimaxVectorSize cfg) e
    | none => minimaxMockEmbedding rand magOf cfg

/-- `OpenAIEmbeddingProvider.embed` (`src/core/embedding_provider.py:108`-`144`). -/
def openaiEmbed (rand : Nat → ℚ) (magOf : List ℚ → ℚ) (cfg : Cfg)
    (response : Option (List ℚ)) : List ℚ :=
  if cfg.api_key = "" then openaiMockEmbedding rand magOf cfg
  else
    match response with
    | some e => fitDim (openaiVectorSize cfg) e
    | none => openaiMockEmbedding rand magOf cfg

end EmbeddingProvider

/-! ### Metadata enrichment (`src/core/memory.py`) -/

namespace MemorySystem

/-- The `STOPWORDS` set of `src/core/memory.py:31`-`38`. -/
def STOPWORDS : List (List Char) :=
  (["this", "that", "with", "from", "have", "been", "were", "they", "their",
    "which", "would", "could", "should", "there", "where", "when", "what",
    "more", "also", "just", "only", "very", "into", "over", "such", "after",
    "before", "about", "above", "below", "between", "under", "again", "then",
    "once", "here", "some", "any", "each", "most", "other", "these", "those",
    "being", "having", "doing", "because", "while", "through", "during"]).map
    String.toList

/-- Maximal runs of regex word characters, the spans between `\b` boundaries. -/
def wordRuns (s : List Char) : List (List Char) :=
  (List.splitOnP (fun c => ¬ isWordChar c) s).filter (fun w => ¬ w.isEmpty)

/-- `re.findall(r'\b[a-zA-Z]{4,}\b', text_lower)`: a match must start and end
on a word boundary, so the matches are exactly the maximal word-character
runs that consist only of letters and have length at least 4. -/
def findWords (s : List Char) : List (List Char) :=
  (wordRuns s).filter (fun r => r.all isAsciiAlpha && decide (4 ≤ r.length))

/-- Insertion step for `Counter.most_common`: an entry `(word, count, index)`
goes before `y` exactly when it has a larger count, or an equal count and a
smaller first-occurrence index (`most_common` sorts by count descending and
is stable, so ties keep insertion order). -/
def mcInsert (x : List Char × Nat × Nat) :
    List (List Char × Nat × Nat) → List (List Char × Nat × Nat)
  | [] => [x]
  | y :: ys =>
    if x.2.1 > y.2.1 || (x.2.1 = y.2.1 && x.2.2 < y.2.2) then x :: y :: ys
    else y :: mcInsert x ys

def mcSort (l : List (List Char × Nat × Nat)) : List (List Char × Nat × Nat) :=
  l.foldr mcInsert []

/-- `MemorySystem._extract_keywords` (`src/core/memory.py:241`-`267`). -/
def extractKeywords (text : List Char) (maxKeywords : Nat) : List (List Char) :=
  if text.isEmpty then []
  else
    let words := findWords (lowerStr text)
    let filtered := words.filter (fun w => ¬ STOPWORDS.contains w)
    let uniq := dedupFirst filtered
    let counted := uniq.enum.map (fun p => (p.2, filtered.count p.2, p.1))
    ((mcSort counted).take maxKeywords).map (fun t => t.1)

def spanishIndicators : List (List Char) :=
  ([" que ", " de ", " la ", " el ", " en ", " con ", " para ",
    " esta ", " son ", " los ", " las ", " una ", " por ", " mas "]).map
    String.toList

def englishIndicators : List (List Char) :=
  ([" the ", " is ", " are ", " was ", " were ", " and ", " or ",
    " with ", " for ", " that ", " this ", " have ", " has "]).map
    String.toList

/-- `MemorySystem._detect_language` (`src/core/memory.py:325`-`353`). -/
def detectLanguage (content : List Char) : Option (List Char) :=
  if content.isEmpty then none
  else
    let lower := lowerStr content
    let spanishCount := (spanishIndicators.filter (fun ind => hasSub lower ind)).length
    let englishCount := (englishIndicators.filter (fun ind => hasSub lower ind)).length
    if spanishCount > englishCount + 2 then some "es".toList
    else if englishCount > spanishCount + 2 then some "en".toList
    else none

/-- `MemorySystem._infer_source_type` (`src/core/memory.py:355`-`392`). -/
def inferSourceType (source : List Char) (_content : List Char) : List Char :=
  if source.isEmpty then "text".toList
  else
    let sl := lowerStr source
    if "http://".toList.isPrefixOf sl || "https://".toList.isPrefixOf sl then
      if hasSub sl "github".toList then "github".toList
      else if hasSub sl "notion".toList || hasSub sl "confluence".toList then
        "wiki".toList
      else if [".pdf", ".doc", ".md"].any (fun e => hasSub sl e.toList) then
        "document".toList
      else "url".toList
    else if source.contains '/' || source.contains '\\' then
      if [".pdf", ".docx", ".xlsx", ".pptx"].any (fun e => hasSub sl e.toList) then
        "document".toList
      else if [".md", ".txt", ".rst"].any (fun e => hasSub sl e.toList) then
        "text_file".toList
      else if [".py", ".js", ".ts", ".java", ".go"].any (fun e => hasSub sl e.toList) then
        "code".toList
      else if [".json", ".yaml", ".yml", ".toml"].any (fun e => hasSub sl e.toList) then
        "config".toList
      else "file".toList
    else "text".toList

/-- A Python metadata value, as far as the enricher writes them. -/
inductive Val where
  | vStr (s : List Char)
  | vNat (n : Nat)
  | vStrList (l : List (List Char))
  | vEnt (people organizations locations : List (List Char))
  deriving DecidableEq

/-- A Python dict as an insertion-ordered association list: assignment
replaces in place when the key exists and appends otherwise. -/
def Metadata : Type := List (String × Val)

def dictSet : List (String × Val) → String → Val → List (String × Val)
  | [], k, v => [(k, v)]
  | (k', v') :: rest, k, v =>
    if k' = k then (k, v) :: rest else (k', v') :: dictSet rest k v

/-- Result shape of `MemorySystem._extract_named_entities`
(`src/core/memory.py:269`-`323`): always a dict with exactly these three
keys.  The regex families themselves (plus the `list(set(…))[:3]`
hash-order-dependent dedup) are supplied as the `extractEnts` parameter of
`enrichMetadata`. -/
structure EntityDict where
  people : List (List Char)
  organizations : List (List Char)
  locations : List (List Char)

/-- `_enrich_metadata`, step 1 (`src/core/memory.py:195`-`197`): stamp
`created_at` and `updated_at`. -/
def enrichTimestamps (m : List (String × Val)) (tsIso : List Char) :
    List (String × Val) :=
  dictSet (dictSet m "created_at" (.vStr tsIso)) "updated_at" (.vStr tsIso)

/-- `_enrich_metadata`, step 2 (`src/core/memory.py:199`-`202`): keywords,
written only when extraction is non-empty. -/
def enrichKeywords (content : List Char) (m : List (String × Val)) :
    List (String × Val) :=
  let keywords := extractKeywords content 15
  if ¬ keywords.isEmpty then dictSet m "keywords" (.vStrList (keywords.take 15))
  else m

/-- `_enrich_metadata`, step 3 (`src/core/memory.py:204`-`217`): entities and
entity labels.  `_extract_named_entities` always returns a dict with the
three keys people/organizations/locations, and a non-empty dict is truthy in
Python, so `if entities:` always fires and `metadata["entities"]` is always
written; `entity_labels` only when some label list is non-empty. -/
def enrichEntities (extractEnts : List Char → EntityDict) (content : List Char)
    (m : List (String × Val)) : List (String × Val) :=
  let ents := extractEnts content
  let m := dictSet m "entities" (.vEnt ents.people ents.organizations ents.locations)
  let entityLabels :=
    (ents.people.take 3).map (fun p => "Person:".toList ++ p) ++
    (ents.organizations.take 3).map (fun o => "Org:".toList ++ o) ++
    (ents.locations.take 3).map (fun l => "Location:".toList ++ l)
  if ¬ entityLabels.isEmpty then dictSet m "entity_labels" (.vStrList entityLabels)
  else m

/-- `_enrich_metadata`, step 4 (`src/core/memory.py:219`-`222`): language,
written only when detected. -/
def enrichLanguage (content : List Char) (m : List (String × Val)) :
    List (String × Val) :=
  match detectLanguage content with
  | some lang => dictSet m "language" (.vStr lang)
  | none => m

/-- `_enrich_metadata`, step 5 (`src/core/memory.py:224`-`229`): source type,
written only when the key is absent — the one place the user's value wins. -/
def enrichSourceType (content : List Char) (m : List (String × Val)) :
    List (String × Val) :=
  if (m.lookup "source_type").isNone then
    let src := match m.lookup "source" with
      | some (.vStr s) => s
      | _ => []
    dictSet m "source_type" (.vStr (inferSourceType src content))
  else m

/-- `_enrich_metadata`, step 6 (`src/core/memory.py:231`-`237`): content hash
and statistics, always written. -/
def enrichStats (sha256hex16 : List Char → List Char) (content : List Char)
    (m : List (String × Val)) : List (String × Val) :=
  dictSet (dictSet (dictSet m "content_hash" (.vStr (sha256hex16 content)))
    "word_count" (.vNat (pySplitWs content).length))
    "char_count" (.vNat content.length)

/-- `MemorySystem._enrich_metadata` (`src/core/memory.py:178`-`239`): the six
steps above, in source order.  `extractEnts` stands for
`_extract_named_entities` and `sha256hex16` for
`hashlib.sha256(content.encode()).hexdigest()[:16]`. -/
def enrichMetadata (extractEnts : List Char → EntityDict)
    (sha256hex16 : List Char → List Char) (content : List Char)
    (metadata : List (String × Val)) (tsIso : List Char) : List (String × Val) :=
  enrichStats sha256hex16 content
    (enrichSourceType content
      (enrichLanguage content
        (enrichEntities extractEnts content
          (enrichKeywords content
            (enrichTimestamps metadata tsIso)))))

/-- The keys that `_enrich_metadata` may write. -/
def enricherKeys : List String :=
  ["created_at", "updated_at", "keywords", "entities", "entity_labels",
   "language", "source_type", "content_hash", "word_count", "char_count"]

/-! ### `MemorySystem.add` (`src/core/memory.py:75`-`176`)

The backend outcomes are the environment: `Except.error` models the call
raising.  `_generate_embedding_with_context` and its fallback
`_generate_embedding` both catch every exception, so embedding generation
never raises and does not appear as a fallible step. -/

structure AddEnv where
  /-- Outcome of `await self.qdrant.ensure_collection()` (line 102). -/
  ensureCollection : Except String Unit
  /-- Outcome of `await self.qdrant.add(...)` (line 109): the new point id. -/
  qdrantAdd : Except String String
  /-- Outcome of `await self.falkordb.add_node(...)` (line 132). -/
  falkordbAddNode : Except String Bool
  /-- Outcome of `await self.graphiti.add_episode(...)` (line 144). -/
  graphitiAddEpisode : Except String String
  /-- Combined outcome of the Redis cache writes (lines 149-168). -/
  redisWrites : Except String Unit
  /-- CPython's builtin `hash` on strings (process-seeded). -/
  pyHash : List Char → Int

structure AddResult where
  qdrant_id : Option String
  falkordb_id : Option String
  status : String
  errors : List String
  metadata_enriched : Bool
  deriving DecidableEq

/-- `MemorySystem.add` (`src/core/memory.py:75`-`176`).  Metadata enrichment
(line 91) feeds only the embedding text and the graph-node payload, neither
of which appears in the returned dict. -/
def add (env : AddEnv) (content : List Char) : Except String AddResult :=
  let r0 : AddResult :=
    { qdrant_id := none, falkordb_id := none, status := "partial",
      errors := [], metadata_enriched := true }
  match env.ensureCollection with
  | .error e => .error e
    -- `await self.qdrant.ensure_collection()` is not inside a try block:
    -- the exception propagates to the caller
  | .ok _ =>
    let r1 := match env.qdrantAdd with
      | .ok docId => { r0 with qdrant_id := some docId }
      | .error e => { r0 with errors := r0.errors ++ ["Qdrant: " ++ e] }
    let entityId := match r1.qdrant_id with
      | some docId => docId
      | none => "doc_" ++ toString (env.pyHash content % 1000000)
    let r2 := match env.falkordbAddNode with
      | .ok _ => { r1 with falkordb_id := some entityId }
      | .error e => { r1 with errors := r1.errors ++ ["FalkorDB: " ++ e] }
    -- steps 5 (graphiti) and 6 (redis) sit in `try: ... except: pass`:
    -- their outcomes are discarded
    let _ := env.graphitiAddEpisode
    let _ := env.redisWrites
    let status :=
      if r2.qdrant_id.isSome ∧ r2.falkordb_id.isSome then "full"
      else if r2.qdrant_id.isSome ∨ r2.falkordb_id.isSome then "partial"
      else r2.status
    .ok { r2 with status := status }

end MemorySystem

/-! ### Consolidation engine (`src/agents/consolidator.py`) -/

namespace ConsolidatorAgent

/-- `ConsolidatorAgent._assess_quality` (`src/agents/consolidator.py:735`-
`751`): score 1.0, halved when more than 10 words are less than 30% unique,
times 0.7 when none of `.!?;:` occurs.  There is no other factor. -/
def assessQuality (content : List Char) : ℚ :=
  if content.isEmpty then 0
  else
    let words := pySplitWs content
    let score1 : ℚ := 1
    let score2 :=
      if words.length > 10 then
        let uniqueCount := (dedupFirst (words.map lowerStr)).length
        if (uniqueCount : ℚ) / (words.length : ℚ) < 3/10 then score1 * (1/2)
        else score1
      else score1
    if ¬ (".!?;:".toList.any (fun c => content.contains c)) then score2 * (7/10)
    else score2

/-- The low-quality flag of `analyze_deep` (`src/agents/consolidator.py:218`,
`263`-`267`): documents whose content is empty or blank are skipped before
the quality check; the rest are flagged exactly when the score is below 0.3. -/
def lowQualityFlagged (content : List Char) : Bool :=
  if content.isEmpty || (pyStrip content).isEmpty then false
  else decide (assessQuality content < 3/10)

/-- The quality score as claim C8 words it: 1.0, times 0.5 if fewer than 30%
of the tokens are unique, times 0.7 if no sentence punctuation is present,
times 0.6 if the non-alphanumeric character ratio exceeds 30%. -/
def claimQualityScore (content : List Char) : ℚ :=
  let words := pySplitWs content
  let uniqueRatio : ℚ :=
    if words.length = 0 then 1
    else ((dedupFirst (words.map lowerStr)).length : ℚ) / (words.length : ℚ)
  let s1 : ℚ := if uniqueRatio < 3/10 then 1 * (1/2) else 1
  let s2 := if ¬ (".!?;:".toList.any (fun c => content.contains c)) then s1 * (7/10) else s1
  let nonAlnumRatio : ℚ :=
    if content.length = 0 then 0
    else ((content.filter (fun c => ! isAsciiAlnum c)).length : ℚ) / (content.length : ℚ)
  if nonAlnumRatio > 3/10 then s2 * (6/10) else s2

/-- What claim C8 says the amended code computes (the amended claim): no
non-alphanumeric factor, and the 0.5 factor is gated on more than 10 words. -/
def amendedQualityScore (content : List Char) : ℚ :=
  if content.isEmpty then 0
  else
    let words := pySplitWs content
    let few :=
      words.length > 10 ∧
        ((dedupFirst (words.map lowerStr)).length : ℚ) / (words.length : ℚ) < 3/10
    let noPunct := ¬ (".!?;:".toList.any (fun c => content.contains c))
    (if few then (1 : ℚ) * (1/2) else 1) * (if noPunct then 7/10 else 1)

structure QDoc where
  id : String
  content : List Char
  deriving DecidableEq

structure SearchHit where
  id : String
  score : ℚ
  deriving DecidableEq

/-- The declared parameters of `QdrantClientWrapper.search`
(`src/core/qdrant_client.py:42`): there is no `score_threshold` parameter. -/
def qdrantSearchParams : List String := ["self", "query_embedding", "limit"]

/-- CPython keyword-argument binding: a call raises `TypeError` unless every
keyword name matches a declared parameter. -/
def pyKwCall {α : Type} (params : List String) (kwargs : List String)
    (run : Unit → α) : Except String α :=
  if kwargs.all (fun k => params.contains k) then .ok (run ())
  else .error "TypeError: search got an unexpected keyword argument"

structure Dup where
  id : String
  similar_to : String
  score : ℚ
  deriving DecidableEq

/-- `ConsolidatorAgent._find_semantic_duplicates`
(`src/agents/consolidator.py:525`-`560`).  `embed` is
`self.memory.embedding.embed` (which never raises: both providers catch all
exceptions) and `search` is the underlying vector search.  The source calls
`search(embedding, limit=5, score_threshold=self.similarity_threshold)`,
a keyword binding checked by `pyKwCall`; `except Exception: continue`
swallows any failure of the loop body. -/
def findSemanticDuplicates (embed : List Char → List ℚ)
    (search : List ℚ → Nat → List SearchHit) (allDocs : List QDoc) : List Dup :=
  let sample := allDocs.take 200
  sample.foldl (fun dups doc =>
    if doc.content.isEmpty then dups
    else
      match pyKwCall qdrantSearchParams ["limit", "score_threshold"]
          (fun _ => search (embed doc.content) 5) with
      | .error _ => dups
      | .ok results =>
        dups ++ (results.filter (fun r => r.id ≠ doc.id)).map
          (fun r => { id := r.id, similar_to := doc.id, score := r.score })
  ) []

/-- Phase 4 of `consolidate` (`src/agents/consolidator.py:101`-`104`): the
ids the semantic-duplicate phase deletes from the vector store. -/
def semanticDupDeletions (embed : List Char → List ℚ)
    (search : List ℚ → Nat → List SearchHit) (allDocs : List QDoc) : List String :=
  (findSemanticDuplicates embed search allDocs).map (fun d => d.id)

end ConsolidatorAgent

/-! ### Deleter agent (`src/agents/deleter.py`) -/

namespace DeleterAgent

structure Edge where
  src : String
  typ : String
  dst : String
  deriving DecidableEq

structure Graph where
  nodes : List String
  edges : List Edge
  deriving DecidableEq

/-- `FalkorDBClient.get_node_relationships` (`src/core/falkordb_client.py:211`-
`220`): the Cypher pattern matches `(n)-[r]->(m)` anchored on the node with
the given id — outgoing edges only. -/
def getNodeRelationships (g : Graph) (id : String) : List Edge :=
  g.edges.filter (fun e => e.src = id)

/-- The public attributes of `GraphitiClient` (`src/core/graphiti_client.py`). -/
def graphitiClientMethods : List String :=
  ["add_episode", "search", "get_history", "consolidate", "health", "close"]

/-- `self.memory.graphiti.get_neighbors(memory_id)`: `GraphitiClient` defines
no such attribute, so the lookup raises `AttributeError`. -/
def graphitiGetNeighbors : Except String (List Edge) :=
  if graphitiClientMethods.contains "get_neighbors" then .ok []
  else .error "AttributeError: GraphitiClient has no attribute get_neighbors"

/-- `DeleterAgent._check_connections` (`src/agents/deleter.py:272`-`292`):
FalkorDB first (outgoing relationships), then the graphiti fallback, whose
`AttributeError` is caught and turned into `False`. -/
def checkConnections (g : Graph) (id : String) : Bool :=
  let result := getNodeRelationships g id
  if result.length > 0 then true
  else
    match graphitiGetNeighbors with
    | .ok r => decide (r.length > 0)
    | .error _ => false

structure Stores where
  vec : List String
  graph : Graph
  deriving DecidableEq

/-- `MATCH ... DETACH DELETE n` on the node with the given id: the node and
every incident edge disappear. -/
def detachDelete (g : Graph) (id : String) : Graph :=
  { nodes := g.nodes.filter (fun n => n ≠ id),
    edges := g.edges.filter (fun e => e.src ≠ id ∧ e.dst ≠ id) }

structure DeleteResult where
  status : String
  qdrant_deleted : Bool
  falkordb_deleted : Bool
  deriving DecidableEq

/-- `DeleterAgent.delete_by_id` (`src/agents/deleter.py:175`-`231`), with the
two per-store deletes modelled as succeeding (their own failures are caught
per-store and do not change the status). -/
def deleteById (s : Stores) (memoryId : String) (preserveConnections : Bool) :
    DeleteResult × Stores :=
  if preserveConnections && checkConnections s.graph memoryId then
    ({ status := "blocked", qdrant_deleted := false, falkordb_deleted := false }, s)
  else
    ({ status := "success", qdrant_deleted := true, falkordb_deleted := true },
     { vec := s.vec.filter (fun v => v ≠ memoryId),
       graph := detachDelete s.graph memoryId })

end DeleterAgent

/-! ### Code indexer (`src/agents/code_indexer.py`) -/

namespace CodeIndexerAgent

/-- The data `_index_single_file` consults for its incremental decision:
the `force` flag, the result of `_check_if_indexed` (`isIndexed`,
`existingDocId`), the stored `last_modified_commit` from
`_get_indexed_commit`, and the file's current last-commit sha
`file_history.get("sha")`. -/
structure FileEnv where
  force : Bool
  isIndexed : Bool
  existingDocId : Option String
  existingCommit : Option String
  fileSha : Option String
  deriving DecidableEq

inductive StoreOp where
  /-- `await self.memory.qdrant.delete(doc_id)` -/
  | deleteVector (id : String)
  /-- `await self.memory.add(content, metadata)` -/
  | addDocument
  deriving DecidableEq

structure FileOutcome where
  indexed : Bool
  action : Option String
  reason : Option String
  deriving DecidableEq

/-- Python truthiness of an `Optional[str]`. -/
def optTruthy : Option String → Bool
  | none => false
  | some s => ¬ s.isEmpty

/-- The incremental decision of `CodeIndexerAgent._index_single_file`
(`src/agents/code_indexer.py:189`-`204`, `253`) together with the store
mutations it performs; `_update_indexed_file`
(`src/agents/code_indexer.py:305`-`341`) deletes the old vector entry and
adds a fresh document. -/
def indexSingleFile (env : FileEnv) : FileOutcome × List StoreOp :=
  if ¬ env.force && env.isIndexed && optTruthy env.existingDocId then
    if env.existingCommit = env.fileSha then
      ({ indexed := false, action := none, reason := some "unchanged" }, [])
    else
      ({ indexed := true, action := some "updated", reason := none },
       [.deleteVector (env.existingDocId.getD ""), .addDocument])
  else
    ({ indexed := true, action := some "created", reason := none },
     [.addDocument])

/-- The per-file counting loop of `CodeIndexerAgent.index`
(`src/agents/code_indexer.py:115`-`137`): `indexed` results count as
indexed, the rest as skipped. -/
def countResults (outcomes : List FileOutcome) : Nat × Nat :=
  outcomes.foldl
    (fun acc o => if o.indexed then (acc.1 + 1, acc.2) else (acc.1, acc.2 + 1))
    (0, 0)

end CodeIndexerAgent

/-! ## Theorems -/

/-! ### Helper lemmas -/

theorem lookup_dictSet (m : List (String × MemorySystem.Val)) (k k' : String)
    (v : MemorySystem.Val) :
    (MemorySystem.dictSet m k v).lookup k' = if k' = k then some v else m.lookup k' := by
  induction m with
  | nil =>
    by_cases h : k' = k
    · subst h; simp [MemorySystem.dictSet, List.lookup]
    · have hb : (k' == k) = false := beq_eq_false_iff_ne.mpr h
      simp [MemorySystem.dictSet, List.lookup, hb, h]
  | cons p rest ih =>
    obtain ⟨k0, v0⟩ := p
    by_cases h0 : k0 = k
    · subst h0
      by_cases h : k' = k0
      · subst h; simp [MemorySystem.dictSet, List.lookup]
      · have hb : (k' == k0) = false := beq_eq_false_iff_ne.mpr h
        simp [MemorySystem.dictSet, List.lookup, hb, h]
    · by_cases h1 : k' = k0
      · subst h1
        simp [MemorySystem.dictSet, if_neg h0, List.lookup, h0]
      · have hb : (k' == k0) = false := beq_eq_false_iff_ne.mpr h1
        simp [MemorySystem.dictSet, if_neg h0, List.lookup, hb, ih]

theorem normalizeBy_length (mag : ℚ) (v : List ℚ) :
    (EmbeddingProvider.normalizeBy mag v).length = v.length := by
  unfold EmbeddingProvider.normalizeBy
  split <;> simp

theorem mockValues_length (rand : Nat → ℚ) (n : Nat) :
    (EmbeddingProvider.mockValues rand n).length = n := by
  simp [EmbeddingProvider.mockValues]

theorem fitDim_length (n : Nat) (e : List ℚ) :
    (EmbeddingProvider.fitDim n e).length = n := by
  unfold EmbeddingProvider.fitDim
  by_cases h : e.length = n
  · simp [h]
  · by_cases h2 : e.length > n
    · simp only [if_neg h, if_pos h2, List.length_take]
      omega
    · simp only [if_neg h, if_neg h2, List.length_append, List.length_replicate]
      omega

/-! ### Divergence of `DocumentProcessor.chunk` -/

namespace DocumentProcessor

theorem hangText_length : hangText.length = 403 := by decide

/-- Loop step at `start = 0`: the window `[0,100)` holds no `'.'`/`'\n'`, so
`end = 100`, the chunk is 100 `'A'`s, and `start` advances to `100-20 = 80`. -/
theorem chunkLoop_step_0 (fuel : Nat) (acc : List (List Char)) :
    chunkLoop hangText 100 20 (fuel + 1) 0 acc =
      chunkLoop hangText 100 20 fuel 80 (acc ++ [List.replicate 100 'A']) := rfl

/-- Loop step at `start = 80`: still no break character in `[80,180)`. -/
theorem chunkLoop_step_80 (fuel : Nat) (acc : List (List Char)) :
    chunkLoop hangText 100 20 (fuel + 1) 80 acc =
      chunkLoop hangText 100 20 fuel 160 (acc ++ [List.replicate 100 'A']) := rfl

/-- Loop step at `start = 160`: the `'.'` at index 200 moves `end` to 201,
and `start` advances to `201 - 20 = 181`. -/
theorem chunkLoop_step_160 (fuel : Nat) (acc : List (List Char)) :
    chunkLoop hangText 100 20 (fuel + 1) 160 acc =
      chunkLoop hangText 100 20 fuel 181
        (acc ++ [List.replicate 40 'A' ++ ['.']]) := rfl

/-- Loop step at `start = 181`: the `'.'` at index 200 again moves `end` to
201, so the next start is `201 - 20 = 181`: the loop state repeats forever,
appending the same 20-character chunk on every iteration. -/
theorem chunkLoop_step_181 (fuel : Nat) (acc : List (List Char)) :
    chunkLoop hangText 100 20 (fuel + 1) 181 acc =
      chunkLoop hangText 100 20 fuel 181
        (acc ++ [List.replicate 19 'A' ++ ['.']]) := rfl

theorem chunkLoop_hang_181 (fuel : Nat) :
    ∀ acc, chunkLoop hangText 100 20 fuel 181 acc = none := by
  induction fuel with
  | zero => intro acc; rfl
  | succ fuel ih =>
    intro acc
    rw [chunkLoop_step_181]
    exact ih _

theorem chunkLoop_hang_160 (fuel : Nat) (acc : List (List Char)) :
    chunkLoop hangText 100 20 fuel 160 acc = none := by
  cases fuel with
  | zero => rfl
  | succ fuel => rw [chunkLoop_step_160]; exact chunkLoop_hang_181 fuel _

theorem chunkLoop_hang_80 (fuel : Nat) (acc : List (List Char)) :
    chunkLoop hangText 100 20 fuel 80 acc = none := by
  cases fuel with
  | zero => rfl
  | succ fuel => rw [chunkLoop_step_80]; exact chunkLoop_hang_160 fuel _

theorem chunkLoop_hang_0 (fuel : Nat) (acc : List (List Char)) :
    chunkLoop hangText 100 20 fuel 0 acc = none := by
  cases fuel with
  | zero => rfl
  | succ fuel => rw [chunkLoop_step_0]; exact chunkLoop_hang_80 fuel _

end DocumentProcessor

/-! ### Claim C6 -/

/-- C6 (code_bug): the claim says `chunk` terminates on every input.  It does
not: on the repository's own test input (`test_chunk_long_text`:
`"A"*200 + ". " + "B"*200 + "."` with `chunk_size=100, chunk_overlap=20`)
the loop reaches `start = 181`, where the break at the period at index 200
sets `end = 201` and the overlap step sets `start = 201 - 20 = 181`
again — the loop never exits, whatever the fuel.  The short-input clause of
the claim does hold (second conjunct: a ≤-chunk-size input passes through
as a single chunk). -/
theorem C6_chunk_divergence :
    (∀ fuel, DocumentProcessor.chunk DocumentProcessor.hangText 100 20 fuel = none) ∧
    DocumentProcessor.chunk "This is a short text.".toList 100 20 0 =
      some ["This is a short text.".toList] := by
  constructor
  · intro fuel
    exact DocumentProcessor.chunkLoop_hang_0 fuel []
  · rfl

/-! ### Claims C1, C2, C10 (`MemorySystem.add`) -/

/-- C1 (counterexample): when the Vector insert and the Graph insert both
fail, `add` returns status `"partial"` — the initial value, never replaced —
whereas the claim requires `"failed"`. -/
theorem C1_counterexample :
    MemorySystem.add
      { ensureCollection := .ok (), qdrantAdd := .error "connection refused",
        falkordbAddNode := .error "connection refused",
        graphitiAddEpisode := .ok "", redisWrites := .ok (),
        pyHash := fun _ => 0 } "hello".toList =
      .ok { qdrant_id := none, falkordb_id := none, status := "partial",
            errors := ["Qdrant: connection refused", "FalkorDB: connection refused"],
            metadata_enriched := true } ∧
    ("partial" : String) ≠ "failed" := by
  exact ⟨rfl, by decide⟩

/-- C1 (amended): provided the collection-existence check succeeds, `add`
returns a result whose status is `"full"` exactly when both the Vector and
the Graph insert succeeded, and `"partial"` in every other case (also when
both failed); the status `"failed"` is never produced. -/
theorem C1_status_amended (env : MemorySystem.AddEnv) (content : List Char)
    (h : env.ensureCollection = .ok ()) :
    ∃ r, MemorySystem.add env content = .ok r ∧
      (r.status = "full" ↔
        (∃ id, env.qdrantAdd = .ok id) ∧ (∃ b, env.falkordbAddNode = .ok b)) ∧
      (r.status = "full" ∨ r.status = "partial") := by
  cases hq : env.qdrantAdd with
  | ok id =>
    cases hf : env.falkordbAddNode with
    | ok b =>
      have heq : MemorySystem.add env content = .ok
          { qdrant_id := some id, falkordb_id := some id, status := "full",
            errors := [], metadata_enriched := true } := by
        simp [MemorySystem.add, h, hq, hf]
      exact ⟨_, heq, by simp [hq, hf], by simp⟩
    | error e =>
      have heq : MemorySystem.add env content = .ok
          { qdrant_id := some id, falkordb_id := none, status := "partial",
            errors := ["FalkorDB: " ++ e], metadata_enriched := true } := by
        simp [MemorySystem.add, h, hq, hf]
      exact ⟨_, heq, by simp [hq, hf], by simp⟩
  | error e =>
    cases hf : env.falkordbAddNode with
    | ok b =>
      have heq : MemorySystem.add env content = .ok
          { qdrant_id := none,
            falkordb_id := some ("doc_" ++ toString (env.pyHash content % 1000000)),
            status := "partial", errors := ["Qdrant: " ++ e],
            metadata_enriched := true } := by
        simp [MemorySystem.add, h, hq, hf]
      exact ⟨_, heq, by simp [hq, hf], by simp⟩
    | error e2 =>
      have heq : MemorySystem.add env content = .ok
          { qdrant_id := none, falkordb_id := none, status := "partial",
            errors := ["Qdrant: " ++ e, "FalkorDB: " ++ e2],
            metadata_enriched := true } := by
        simp [MemorySystem.add, h, hq, hf]
      exact ⟨_, heq, by simp [hq, hf], by simp⟩

theorem C1_status_amended_witness :
    ∃ r, MemorySystem.add
      { ensureCollection := .ok (), qdrantAdd := .ok "uuid-1",
        falkordbAddNode := .error "down", graphitiAddEpisode := .ok "",
        redisWrites := .ok (), pyHash := fun _ => 0 } "x".toList = .ok r ∧
      (r.status = "full" ↔
        (∃ id, (Except.ok "uuid-1" : Except String String) = .ok id) ∧
        (∃ b, (Except.error "down" : Except String Bool) = .ok b)) ∧
      (r.status = "full" ∨ r.status = "partial") :=
  C1_status_amended _ _ rfl

/-- C2 (counterexample): the Vector collection-existence check
(`await self.qdrant.ensure_collection()`, `src/core/memory.py:102`) is the
one backend call of `add` that sits outside every try block; when it raises,
the exception propagates to the caller instead of being recorded in the
result's errors list. -/
theorem C2_counterexample :
    MemorySystem.add
      { ensureCollection := .error "qdrant unreachable", qdrantAdd := .ok "id-1",
        falkordbAddNode := .ok true, graphitiAddEpisode := .ok "",
        redisWrites := .ok (), pyHash := fun _ => 0 } "hello".toList =
      .error "qdrant unreachable" := rfl

/-- C2 (amended): provided the collection-existence check succeeds, `add`
never propagates an exception: it returns a result object in which a Vector
insert failure is recorded as `"Qdrant: …"` and a Graph insert failure as
`"FalkorDB: …"`; Graphiti and cache-write failures are swallowed without
being recorded. -/
theorem C2_errors_amended (env : MemorySystem.AddEnv) (content : List Char)
    (h : env.ensureCollection = .ok ()) :
    ∃ r, MemorySystem.add env content = .ok r ∧
      (∀ e, env.qdrantAdd = .error e → ("Qdrant: " ++ e) ∈ r.errors) ∧
      (∀ e, env.falkordbAddNode = .error e → ("FalkorDB: " ++ e) ∈ r.errors) := by
  cases hq : env.qdrantAdd with
  | ok id =>
    cases hf : env.falkordbAddNode with
    | ok b =>
      have heq : MemorySystem.add env content = .ok
          { qdrant_id := some id, falkordb_id := some id, status := "full",
            errors := [], metadata_enriched := true } := by
        simp [MemorySystem.add, h, hq, hf]
      exact ⟨_, heq, by simp [hq], by simp [hf]⟩
    | error e =>
      have heq : MemorySystem.add env content = .ok
          { qdrant_id := some id, falkordb_id := none, status := "partial",
            errors := ["FalkorDB: " ++ e], metadata_enriched := true } := by
        simp [MemorySystem.add, h, hq, hf]
      exact ⟨_, heq, by simp [hq], by simp [hf]⟩
  | error e =>
    cases hf : env.falkordbAddNode with
    | ok b =>
      have heq : MemorySystem.add env content = .ok
          { qdrant_id := none,
            falkordb_id := some ("doc_" ++ toString (env.pyHash content % 1000000)),
            status := "partial", errors := ["Qdrant: " ++ e],
            metadata_enriched := true } := by
        simp [MemorySystem.add, h, hq, hf]
      exact ⟨_, heq, by simp [hq], by simp [hf]⟩
    | error e2 =>
      have heq : MemorySystem.add env content = .ok
          { qdrant_id := none, falkordb_id := none, status := "partial",
            errors := ["Qdrant: " ++ e, "FalkorDB: " ++ e2],
            metadata_enriched := true } := by
        simp [MemorySystem.add, h, hq, hf]
      exact ⟨_, heq, by simp [hq], by simp [hf]⟩

theorem C2_errors_amended_witness :
    ∃ r, MemorySystem.add
      { ensureCollection := .ok (), qdrantAdd := .error "timeout",
        falkordbAddNode := .error "node error", graphitiAddEpisode := .error "down",
        redisWrites := .error "down", pyHash := fun _ => 41 } "x".toList = .ok r ∧
      (∀ e, (Except.error "timeout" : Except String String) = .error e →
        ("Qdrant: " ++ e) ∈ r.errors) ∧
      (∀ e, (Except.error "node error" : Except String Bool) = .error e →
        ("FalkorDB: " ++ e) ∈ r.errors) :=
  C2_errors_amended _ _ rfl

/-- C10 (confirmed): when the Vector insert fails but the Graph insert
succeeds, the graph node is created under the fallback id
`"doc_" + str(hash(content) % 1000000)`, while `qdrant_id` stays `None` —
after such a partial add the Graph holds a document id with no counterpart
in the Vector store. -/
theorem C10_fallback_doc_id (env : MemorySystem.AddEnv) (content : List Char)
    (h : env.ensureCollection = .ok ()) (e : String) (hq : env.qdrantAdd = .error e)
    (b : Bool) (hf : env.falkordbAddNode = .ok b) :
    ∃ r, MemorySystem.add env content = .ok r ∧
      r.qdrant_id = none ∧
      r.falkordb_id = some ("doc_" ++ toString (env.pyHash content % 1000000)) ∧
      r.status = "partial" := by
  have heq : MemorySystem.add env content = .ok
      { qdrant_id := none,
        falkordb_id := some ("doc_" ++ toString (env.pyHash content % 1000000)),
        status := "partial", errors := ["Qdrant: " ++ e],
        metadata_enriched := true } := by
    simp [MemorySystem.add, h, hq, hf]
  exact ⟨_, heq, rfl, rfl, rfl⟩

/-- Witness for C10, with `hash(content) = -7`: Python's `%` (and `Int.emod`)
give `-7 % 1000000 = 999993`, so the fallback id is `"doc_999993"`. -/
theorem C10_fallback_doc_id_witness :
    ∃ r, MemorySystem.add
      { ensureCollection := .ok (), qdrantAdd := .error "insert failed",
        falkordbAddNode := .ok true, graphitiAddEpisode := .ok "",
        redisWrites := .ok (), pyHash := fun _ => -7 } "hello".toList = .ok r ∧
      r.qdrant_id = none ∧
      r.falkordb_id = some "doc_999993" ∧
      r.status = "partial" := by
  have h := C10_fallback_doc_id
    { ensureCollection := .ok (), qdrantAdd := .error "insert failed",
      falkordbAddNode := .ok true, graphitiAddEpisode := .ok "",
      redisWrites := .ok (), pyHash := fun _ => -7 } "hello".toList rfl
    "insert failed" rfl true rfl
  simpa using h

/-! ### Claim C3 -/

/-- C3 (code_bug): the claim (and the spec) say the semantic-duplicate phase
re-embeds up to 200 sampled documents, searches top-5 with min score 0.85
and deletes every returned id different from the sample's own id.  In the
code, `QdrantClientWrapper.search` declares no `score_threshold` parameter,
so the call `search(embedding, limit=5, score_threshold=…)` raises
`TypeError`, which `except Exception: continue` swallows: for every store
content and every search behaviour, `_find_semantic_duplicates` returns the
empty list and the phase deletes nothing. -/
theorem C3_semantic_phase_never_deletes (embed : List Char → List ℚ)
    (search : List ℚ → Nat → List ConsolidatorAgent.SearchHit)
    (allDocs : List ConsolidatorAgent.QDoc) :
    ConsolidatorAgent.findSemanticDuplicates embed search allDocs = [] ∧
    ConsolidatorAgent.semanticDupDeletions embed search allDocs = [] := by
  have hcall : ∀ f : Unit → List ConsolidatorAgent.SearchHit,
      ConsolidatorAgent.pyKwCall ConsolidatorAgent.qdrantSearchParams
        ["limit", "score_threshold"] f =
        .error "TypeError: search got an unexpected keyword argument" :=
    fun _ => rfl
  have key : ∀ (l : List ConsolidatorAgent.QDoc) (acc : List ConsolidatorAgent.Dup),
      l.foldl (fun dups doc =>
        if doc.content.isEmpty then dups
        else
          match ConsolidatorAgent.pyKwCall ConsolidatorAgent.qdrantSearchParams
              ["limit", "score_threshold"] (fun _ => search (embed doc.content) 5) with
          | .error _ => dups
          | .ok results =>
            dups ++ (results.filter (fun r => r.id ≠ doc.id)).map
              (fun r => { id := r.id, similar_to := doc.id, score := r.score })) acc
        = acc := by
    intro l
    induction l with
    | nil => intro acc; rfl
    | cons d t ih =>
      intro acc
      rw [List.foldl_cons, hcall]
      cases hd : d.content.isEmpty <;> simp only [hd, if_true, if_false] <;> exact ih acc
  have h1 : ConsolidatorAgent.findSemanticDuplicates embed search allDocs = [] :=
    key (allDocs.take 200) []
  exact ⟨h1, by simp [ConsolidatorAgent.semanticDupDeletions, h1]⟩

/-! ### Claim C4 -/

/-- C4 (counterexample): the node `"d"` has one incident edge — the incoming
edge from `"a"` — yet `delete_by_id("d", preserve_connections=True)` does
not return `blocked`: `get_node_relationships` matches outgoing edges only,
the graphiti fallback raises `AttributeError` (no such method) which is
caught as `False`, and the deletion proceeds and mutates both stores. -/
theorem C4_counterexample :
    (({ nodes := ["a", "d"], edges := [{ src := "a", typ := "MENTIONS", dst := "d" }] } : DeleterAgent.Graph).edges.any
        (fun e => e.src = "d" || e.dst = "d") = true) ∧
    DeleterAgent.deleteById
      { vec := ["a", "d"], graph := { nodes := ["a", "d"], edges := [{ src := "a", typ := "MENTIONS", dst := "d" }] } }
      "d" true =
      ({ status := "success", qdrant_deleted := true, falkordb_deleted := true },
       { vec := ["a"], graph := { nodes := ["a"], edges := [] } }) ∧
    ("success" : String) ≠ "blocked" := by
  exact ⟨by decide, rfl, by decide⟩

/-- C4 (amended): with `preserve_connections=true` the deletion is blocked —
status `blocked`, no mutation — exactly when the graph has at least one
OUTGOING edge on the id (`get_node_relationships` matches `(n)-[r]->(m)`
only; the graphiti fallback always raises and counts as no connections);
with no outgoing edge, or with `preserve_connections=false`, the deletion
proceeds in both the Vector and the Graph store. -/
theorem C4_blocked_amended (s : DeleterAgent.Stores) (id : String) :
    ((DeleterAgent.deleteById s id true).1.status = "blocked" ↔
      DeleterAgent.getNodeRelationships s.graph id ≠ []) ∧
    (DeleterAgent.getNodeRelationships s.graph id ≠ [] →
      DeleterAgent.deleteById s id true =
        ({ status := "blocked", qdrant_deleted := false, falkordb_deleted := false }, s)) ∧
    (DeleterAgent.getNodeRelationships s.graph id = [] →
      DeleterAgent.deleteById s id true =
        ({ status := "success", qdrant_deleted := true, falkordb_deleted := true },
         { vec := s.vec.filter (fun v => v ≠ id),
           graph := DeleterAgent.detachDelete s.graph id })) ∧
    DeleterAgent.deleteById s id false =
      ({ status := "success", qdrant_deleted := true, falkordb_deleted := true },
       { vec := s.vec.filter (fun v => v ≠ id),
         graph := DeleterAgent.detachDelete s.graph id }) := by
  have hgn : DeleterAgent.graphitiGetNeighbors =
      .error "AttributeError: GraphitiClient has no attribute get_neighbors" := rfl
  by_cases hr : DeleterAgent.getNodeRelationships s.graph id = []
  · have hc : DeleterAgent.checkConnections s.graph id = false := by
      simp [DeleterAgent.checkConnections, hr, hgn]
    refine ⟨?_, ?_, ?_, ?_⟩
    · simp [DeleterAgent.deleteById, hc, hr]
    · intro hcontra; exact absurd hr hcontra
    · intro _; simp [DeleterAgent.deleteById, hc]
    · simp [DeleterAgent.deleteById]
  · have hlen : (DeleterAgent.getNodeRelationships s.graph id).length > 0 :=
      List.length_pos.mpr hr
    have hc : DeleterAgent.checkConnections s.graph id = true := by
      simp [DeleterAgent.checkConnections, hlen]
    refine ⟨?_, ?_, ?_, ?_⟩
    · simp [DeleterAgent.deleteById, hc, hr]
    · intro _; simp [DeleterAgent.deleteById, hc]
    · intro hcontra; exact absurd hcontra hr
    · simp [DeleterAgent.deleteById]

theorem C4_blocked_amended_witness :
    DeleterAgent.deleteById
      { vec := ["x", "y"], graph := { nodes := ["x", "y"], edges := [{ src := "x", typ := "LINKS", dst := "y" }] } }
      "x" true =
      ({ status := "blocked", qdrant_deleted := false, falkordb_deleted := false },
       { vec := ["x", "y"], graph := { nodes := ["x", "y"], edges := [{ src := "x", typ := "LINKS", dst := "y" }] } }) :=
  (C4_blocked_amended
    { vec := ["x", "y"], graph := { nodes := ["x", "y"], edges := [{ src := "x", typ := "LINKS", dst := "y" }] } }
    "x").2.1 (by decide)

/-! ### Claim C5 -/

/-- C5 (code_bug): the claim says both providers always return a vector of
exactly the configured dimension `D`, also on the fallback path.  With
`model="text-embedding-3-large"` the configured dimension is `D = 3072`, yet
`OpenAIEmbeddingProvider._mock_embedding` iterates over the literal
`range(1536)` and returns a 1536-vector for every RNG stream and magnitude —
while the network path (truncate/pad) and the MiniMax provider's fallback
(which iterates over `range(self.vector_size)`) do return 3072. -/
theorem C5_openai_fallback_wrong_dimension :
    EmbeddingProvider.openaiVectorSize
      { api_key := "", model := "text-embedding-3-large", vector_size := none } = 3072 ∧
    (∀ rand magOf,
      (EmbeddingProvider.openaiEmbed rand magOf
        { api_key := "", model := "text-embedding-3-large", vector_size := none }
        none).length = 1536) ∧
    (1536 : Nat) ≠ 3072 ∧
    (∀ rand magOf resp,
      (EmbeddingProvider.openaiEmbed rand magOf
        { api_key := "key", model := "text-embedding-3-large", vector_size := none }
        (some resp)).length = 3072) ∧
    (∀ rand magOf resp,
      (EmbeddingProvider.minimaxEmbed rand magOf
        { api_key := "", model := "text-embedding-3-large", vector_size := none }
        resp).length = 3072) := by
  refine ⟨rfl, ?_, by decide, ?_, ?_⟩
  · intro rand magOf
    simp [EmbeddingProvider.openaiEmbed, EmbeddingProvider.openaiMockEmbedding,
      normalizeBy_length, mockValues_length]
  · intro rand magOf resp
    simp [EmbeddingProvider.openaiEmbed, fitDim_length,
      EmbeddingProvider.openaiVectorSize, EmbeddingProvider.openaiDefaultDims]
  · intro rand magOf resp
    simp [EmbeddingProvider.minimaxEmbed, EmbeddingProvider.minimaxMockEmbedding,
      normalizeBy_length, mockValues_length, EmbeddingProvider.minimaxVectorSize,
      EmbeddingProvider.minimaxDefaultDims]

/-! ### Claim C7 -/

theorem lookup_enrichTimestamps (m : List (String × MemorySystem.Val))
    (ts : List Char) (k : String) :
    (MemorySystem.enrichTimestamps m ts).lookup k =
      if k = "updated_at" then some (.vStr ts)
      else if k = "created_at" then some (.vStr ts)
      else m.lookup k := by
  simp [MemorySystem.enrichTimestamps, lookup_dictSet]

theorem lookup_enrichKeywords_ne (content : List Char)
    (m : List (String × MemorySystem.Val)) (k : String) (h : k ≠ "keywords") :
    (MemorySystem.enrichKeywords content m).lookup k = m.lookup k := by
  simp only [MemorySystem.enrichKeywords]
  split_ifs <;> simp [lookup_dictSet, h]

theorem lookup_enrichEntities_ne (E : List Char → MemorySystem.EntityDict)
    (content : List Char) (m : List (String × MemorySystem.Val)) (k : String)
    (h1 : k ≠ "entities") (h2 : k ≠ "entity_labels") :
    (MemorySystem.enrichEntities E content m).lookup k = m.lookup k := by
  simp only [MemorySystem.enrichEntities]
  split_ifs <;> simp [lookup_dictSet, h1, h2]

theorem lookup_enrichEntities_entities (E : List Char → MemorySystem.EntityDict)
    (content : List Char) (m : List (String × MemorySystem.Val)) :
    (MemorySystem.enrichEntities E content m).lookup "entities" =
      some (.vEnt (E content).people (E content).organizations
        (E content).locations) := by
  simp only [MemorySystem.enrichEntities]
  split_ifs <;> simp [lookup_dictSet]

theorem lookup_enrichLanguage_ne (content : List Char)
    (m : List (String × MemorySystem.Val)) (k : String) (h : k ≠ "language") :
    (MemorySystem.enrichLanguage content m).lookup k = m.lookup k := by
  unfold MemorySystem.enrichLanguage
  cases MemorySystem.detectLanguage content <;> simp [lookup_dictSet, h]

theorem lookup_enrichSourceType_ne (content : List Char)
    (m : List (String × MemorySystem.Val)) (k : String) (h : k ≠ "source_type") :
    (MemorySystem.enrichSourceType content m).lookup k = m.lookup k := by
  unfold MemorySystem.enrichSourceType
  split_ifs <;> simp [lookup_dictSet, h]

theorem lookup_enrichSourceType_present (content : List Char)
    (m : List (String × MemorySystem.Val)) (v : MemorySystem.Val)
    (h : m.lookup "source_type" = some v) :
    (MemorySystem.enrichSourceType content m).lookup "source_type" = some v := by
  unfold MemorySystem.enrichSourceType
  rw [if_neg]
  · exact h
  · simp [h]

theorem lookup_enrichStats (H : List Char → List Char) (content : List Char)
    (m : List (String × MemorySystem.Val)) (k : String) :
    (MemorySystem.enrichStats H content m).lookup k =
      if k = "char_count" then some (.vNat content.length)
      else if k = "word_count" then some (.vNat (pySplitWs content).length)
      else if k = "content_hash" then some (.vStr (H content))
      else m.lookup k := by
  simp [MemorySystem.enrichStats, lookup_dictSet]

/-- C7 (counterexample): the caller supplies `created_at`, and the enricher
overwrites it with the current timestamp — the caller's value does not win.
The entity extractor is instantiated with the constant empty dictionary,
which is what `_extract_named_entities` returns on this all-lowercase
content (every entity regex requires capitalised words); the hash parameter
stands for `sha256(...).hexdigest()[:16]` and does not affect `created_at`. -/
theorem C7_counterexample :
    (MemorySystem.enrichMetadata
        (fun _ => { people := [], organizations := [], locations := [] })
        (fun _ => "0123456789abcdef".toList)
        "hello world hello program".toList
        [("created_at", .vStr "2020-01-01T00:00:00".toList)]
        "2024-06-01T12:00:00".toList).lookup "created_at" =
      some (.vStr "2024-06-01T12:00:00".toList) ∧
    "2024-06-01T12:00:00".toList ≠ "2020-01-01T00:00:00".toList := by
  exact ⟨by decide, by decide⟩

/-- C7 (amended): user-supplied metadata survives only outside the keys the
enricher writes: any key it never touches keeps the caller's value, and
`source_type` keeps the caller's value when present; but `created_at`,
`updated_at`, `entities`, `content_hash`, `word_count` and `char_count` are
always overwritten with the derived values (and `keywords`, `language`,
`entity_labels` whenever the corresponding extraction is non-empty). -/
theorem C7_enrich_amended (extractEnts : List Char → MemorySystem.EntityDict)
    (sha256hex16 : List Char → List Char) (content : List Char)
    (m0 : List (String × MemorySystem.Val)) (ts : List Char) (k : String)
    (hk : ¬ MemorySystem.enricherKeys.contains k) :
    ((MemorySystem.enrichMetadata extractEnts sha256hex16 content m0 ts).lookup k
      = m0.lookup k) ∧
    ((MemorySystem.enrichMetadata extractEnts sha256hex16 content m0 ts).lookup
      "created_at" = some (.vStr ts)) ∧
    ((MemorySystem.enrichMetadata extractEnts sha256hex16 content m0 ts).lookup
      "updated_at" = some (.vStr ts)) ∧
    ((MemorySystem.enrichMetadata extractEnts sha256hex16 content m0 ts).lookup
      "entities" = some (.vEnt (extractEnts content).people
        (extractEnts content).organizations (extractEnts content).locations)) ∧
    ((MemorySystem.enrichMetadata extractEnts sha256hex16 content m0 ts).lookup
      "content_hash" = some (.vStr (sha256hex16 content))) ∧
    ((MemorySystem.enrichMetadata extractEnts sha256hex16 content m0 ts).lookup
      "word_count" = some (.vNat (pySplitWs content).length)) ∧
    ((MemorySystem.enrichMetadata extractEnts sha256hex16 content m0 ts).lookup
      "char_count" = some (.vNat content.length)) ∧
    (∀ v, m0.lookup "source_type" = some v →
      (MemorySystem.enrichMetadata extractEnts sha256hex16 content m0 ts).lookup
        "source_type" = some v) := by
  have h01 : k ≠ "created_at" := fun he => hk (by subst he; decide)
  have h02 : k ≠ "updated_at" := fun he => hk (by subst he; decide)
  have h03 : k ≠ "keywords" := fun he => hk (by subst he; decide)
  have h04 : k ≠ "entities" := fun he => hk (by subst he; decide)
  have h05 : k ≠ "entity_labels" := fun he => hk (by subst he; decide)
  have h06 : k ≠ "language" := fun he => hk (by subst he; decide)
  have h07 : k ≠ "source_type" := fun he => hk (by subst he; decide)
  have h08 : k ≠ "content_hash" := fun he => hk (by subst he; decide)
  have h09 : k ≠ "word_count" := fun he => hk (by subst he; decide)
  have h10 : k ≠ "char_count" := fun he => hk (by subst he; decide)
  refine ⟨?_, ?_, ?_, ?_, ?_, ?_, ?_, ?_⟩
  · simp only [MemorySystem.enrichMetadata]
    rw [lookup_enrichStats, if_neg h10, if_neg h09, if_neg h08,
      lookup_enrichSourceType_ne _ _ _ h07, lookup_enrichLanguage_ne _ _ _ h06,
      lookup_enrichEntities_ne _ _ _ _ h04 h05, lookup_enrichKeywords_ne _ _ _ h03,
      lookup_enrichTimestamps, if_neg h02, if_neg h01]
  · simp only [MemorySystem.enrichMetadata]
    rw [lookup_enrichStats,
      lookup_enrichSourceType_ne _ _ _ (by decide),
      lookup_enrichLanguage_ne _ _ _ (by decide),
      lookup_enrichEntities_ne _ _ _ _ (by decide) (by decide),
      lookup_enrichKeywords_ne _ _ _ (by decide), lookup_enrichTimestamps]
    simp
  · simp only [MemorySystem.enrichMetadata]
    rw [lookup_enrichStats,
      lookup_enrichSourceType_ne _ _ _ (by decide),
      lookup_enrichLanguage_ne _ _ _ (by decide),
      lookup_enrichEntities_ne _ _ _ _ (by decide) (by decide),
      lookup_enrichKeywords_ne _ _ _ (by decide), lookup_enrichTimestamps]
    simp
  · simp only [MemorySystem.enrichMetadata]
    rw [lookup_enrichStats,
      lookup_enrichSourceType_ne _ _ _ (by decide),
      lookup_enrichLanguage_ne _ _ _ (by decide),
      lookup_enrichEntities_entities]
    simp
  · simp only [MemorySystem.enrichMetadata]
    simp [lookup_enrichStats]
  · simp only [MemorySystem.enrichMetadata]
    simp [lookup_enrichStats]
  · simp only [MemorySystem.enrichMetadata]
    simp [lookup_enrichStats]
  · intro v hmv
    simp only [MemorySystem.enrichMetadata]
    have hm' : (MemorySystem.enrichLanguage content
        (MemorySystem.enrichEntities extractEnts content
          (MemorySystem.enrichKeywords content
            (MemorySystem.enrichTimestamps m0 ts)))).lookup "source_type" =
        some v := by
      rw [lookup_enrichLanguage_ne _ _ _ (by decide),
        lookup_enrichEntities_ne _ _ _ _ (by decide) (by decide),
        lookup_enrichKeywords_ne _ _ _ (by decide), lookup_enrichTimestamps]
      simpa using hmv
    rw [lookup_enrichStats]
    simp [lookup_enrichSourceType_present _ _ _ hm']

theorem C7_enrich_amended_witness :
    ((MemorySystem.enrichMetadata
        (fun _ => { people := ["Ada Lovelace".toList], organizations := [], locations := [] })
        (fun _ => "00ff00ff00ff00ff".toList) "hola".toList
        [("source_type", .vStr "api".toList), ("my_key", .vNat 7)]
        "2024-01-01T00:00:00".toList).lookup "my_key" =
      some (.vNat 7)) ∧
    ((MemorySystem.enrichMetadata
        (fun _ => { people := ["Ada Lovelace".toList], organizations := [], locations := [] })
        (fun _ => "00ff00ff00ff00ff".toList) "hola".toList
        [("source_type", .vStr "api".toList), ("my_key", .vNat 7)]
        "2024-01-01T00:00:00".toList).lookup "source_type" =
      some (.vStr "api".toList)) := by
  have h := C7_enrich_amended
    (fun _ => { people := ["Ada Lovelace".toList], organizations := [], locations := [] })
    (fun _ => "00ff00ff00ff00ff".toList) "hola".toList
    [("source_type", .vStr "api".toList), ("my_key", .vNat 7)]
    "2024-01-01T00:00:00".toList "my_key" (by decide)
  exact ⟨by rw [h.1]; decide, h.2.2.2.2.2.2.2 (.vStr "api".toList) (by decide)⟩

/-! ### Claim C8 -/

/-- C8 (counterexample): on `"@@@@@@@ a."` the claimed formula gives
`1.0 × 0.6 = 0.6` (unique ratio 100%, a period is present, 9 of 10
characters are non-alphanumeric), but `_assess_quality` has no
non-alphanumeric factor at all and returns `1.0`. -/
theorem C8_counterexample :
    ConsolidatorAgent.assessQuality "@@@@@@@ a.".toList = 1 ∧
    ConsolidatorAgent.claimQualityScore "@@@@@@@ a.".toList = 3/5 ∧
    (1 : ℚ) ≠ 3/5 := by
  have hw : (pySplitWs "@@@@@@@ a.".toList).length = 2 := by decide
  have hd : (dedupFirst (List.map lowerStr (pySplitWs "@@@@@@@ a.".toList))).length = 2 := by
    decide
  have hp : (".!?;:".toList.any (fun c => "@@@@@@@ a.".toList.contains c)) = true := by
    decide
  have hf : (List.filter (fun c => ! isAsciiAlnum c) "@@@@@@@ a.".toList).length = 9 := by
    decide
  have hl : ("@@@@@@@ a.".toList).length = 10 := by decide
  refine ⟨by decide, ?_, by norm_num⟩
  simp only [ConsolidatorAgent.claimQualityScore, hw, hd, hp, hf, hl]
  norm_num

/-- C8 (amended): the score is 1.0, times 0.5 exactly when the content has
more than 10 whitespace-separated tokens of which fewer than 30% are unique
(case-insensitively), times 0.7 exactly when none of `.!?;:` occurs; there
is no non-alphanumeric factor, and empty content scores 0.  The low-quality
flag (score < 0.3) is therefore never raised: every non-blank document
scores at least 0.35. -/
theorem C8_quality_amended (content : List Char) :
    ConsolidatorAgent.assessQuality content = ConsolidatorAgent.amendedQualityScore content ∧
    ConsolidatorAgent.lowQualityFlagged content = false := by
  constructor
  · by_cases he : content.isEmpty
    · simp [ConsolidatorAgent.assessQuality, ConsolidatorAgent.amendedQualityScore, he]
    · simp only [ConsolidatorAgent.assessQuality, ConsolidatorAgent.amendedQualityScore,
        he, Bool.false_eq_true, if_false]
      split_ifs <;> simp_all
  · by_cases hb : content.isEmpty || (pyStrip content).isEmpty
    · simp [ConsolidatorAgent.lowQualityFlagged, hb]
    · have he : content.isEmpty = false := by
        cases h : content.isEmpty
        · rfl
        · rw [h] at hb; simp at hb
      have hge : (7/20 : ℚ) ≤ ConsolidatorAgent.assessQuality content := by
        simp only [ConsolidatorAgent.assessQuality, he, Bool.false_eq_true, if_false]
        split_ifs <;> norm_num
      have hnlt : ¬ (ConsolidatorAgent.assessQuality content < 3/10) := by
        intro hlt
        have := lt_of_le_of_lt hge hlt
        norm_num at this
      simp [ConsolidatorAgent.lowQualityFlagged, hb, hnlt]

/-! ### Claim C9 -/

/-- C9 (confirmed): with `force=false` and an existing document found for the
file, `_index_single_file` skips (not indexed, counted as skipped, no store
mutation) exactly when the stored `last_modified_commit` equals the file's
current last-commit sha; when they differ it deletes the old vector entry,
adds a fresh document, and reports `indexed=True, action="updated"`. -/
theorem C9_incremental_decision (env : CodeIndexerAgent.FileEnv)
    (h1 : env.force = false) (h2 : env.isIndexed = true)
    (h3 : CodeIndexerAgent.optTruthy env.existingDocId = true) :
    (CodeIndexerAgent.indexSingleFile env =
        ({ indexed := false, action := none, reason := some "unchanged" }, [])
      ↔ env.existingCommit = env.fileSha) ∧
    (env.existingCommit ≠ env.fileSha →
      CodeIndexerAgent.indexSingleFile env =
        ({ indexed := true, action := some "updated", reason := none },
         [.deleteVector (env.existingDocId.getD ""), .addDocument])) ∧
    CodeIndexerAgent.countResults [(CodeIndexerAgent.indexSingleFile env).1] =
      (if env.existingCommit = env.fileSha then (0, 1) else (1, 0)) := by
  by_cases hc : env.existingCommit = env.fileSha
  · refine ⟨?_, ?_, ?_⟩ <;>
      simp [CodeIndexerAgent.indexSingleFile, CodeIndexerAgent.countResults, h1, h2, h3, hc]
  · refine ⟨?_, ?_, ?_⟩ <;>
      simp [CodeIndexerAgent.indexSingleFile, CodeIndexerAgent.countResults, h1, h2, h3, hc]

theorem C9_incremental_decision_witness :
    CodeIndexerAgent.indexSingleFile
      { force := false, isIndexed := true, existingDocId := some "doc-1",
        existingCommit := some "abc123", fileSha := some "def456" } =
      ({ indexed := true, action := some "updated", reason := none },
       [.deleteVector "doc-1", .addDocument]) :=
  (C9_incremental_decision
    { force := false, isIndexed := true, existingDocId := some "doc-1",
      existingCommit := some "abc123", fileSha := some "def456" }
    rfl rfl rfl).2.1 (by decide)

end UltraMemory
